import Mathlib

/-!
Verification of the sleep-schedule analyzer (`src/sleep_analyzer.py`).

The core logic of the program is three functions over an in-memory table:
`calculate_sleep_duration`, `add_sleep_entry`, `analyze_sleep_patterns`.
We embed them shallowly: Python `datetime.time` values become a `TimeOfDay`
structure with bounded hour/minute fields, the pandas data frame becomes a
`List SleepEntry`, durations become exact rationals, and the standard
deviations produced by pandas (`Series.std`, ddof = 1) become `Real.sqrt`
of an exact rational sample variance.
-/

/-- A time of day, modelling Python `datetime.time(hour, minute)`:
hour in `[0, 23]`, minute in `[0, 59]`. -/
structure TimeOfDay where
  hour : Fin 24
  minute : Fin 60
deriving DecidableEq, Repr

/-- Minutes since midnight of a time of day. -/
def toMinutes (t : TimeOfDay) : ℕ :=
  60 * t.hour.val + t.minute.val

/-- Bedtime expressed in decimal hours, `x.hour + x.minute/60`, as in the
lambda applied to the `Bedtime` column of the data frame. -/
def toDecimalHours (t : TimeOfDay) : ℚ :=
  (t.hour.val : ℚ) + (t.minute.val : ℚ) / 60

/-- Embeds `calculate_sleep_duration`, made explicit in the reference date:
`today` models the value of `datetime.now().date()` (as a day count), so
`datetime.combine(datetime.now().date(), t)` becomes the instant
`today * 1440 + toMinutes t`, measured in minutes.  When
`bedtime_dt > waketime_dt` the code adds `timedelta(days=1)` to the wake
instant; the result is `total_seconds() / 3600`. -/
def calculate_sleep_duration_on (today : ℤ) (bedtime waketime : TimeOfDay) : ℚ :=
  let bedtime_dt : ℤ := today * 1440 + (toMinutes bedtime : ℤ)
  let waketime_dt : ℤ := today * 1440 + (toMinutes waketime : ℤ)
  let waketime_dt2 : ℤ := if bedtime_dt > waketime_dt then waketime_dt + 1440 else waketime_dt
  (((waketime_dt2 - bedtime_dt) * 60 : ℤ) : ℚ) / 3600

/-- `calculate_sleep_duration` as the program computes it; the choice of
reference date is immaterial (proved below), so we fix day `0`. -/
def calculate_sleep_duration (bedtime waketime : TimeOfDay) : ℚ :=
  calculate_sleep_duration_on 0 bedtime waketime

/-- A concrete time of day built from raw naturals, for concrete test inputs. -/
def mkTime (h m : ℕ) (hh : h < 24 := by norm_num) (hm : m < 60 := by norm_num) : TimeOfDay :=
  ⟨⟨h, hh⟩, ⟨m, hm⟩⟩

example : calculate_sleep_duration (mkTime 23 0) (mkTime 7 0) = 8 := by
  norm_num [calculate_sleep_duration, calculate_sleep_duration_on, toMinutes, mkTime]
example : calculate_sleep_duration (mkTime 23 0) (mkTime 23 0) = 0 := by
  norm_num [calculate_sleep_duration, calculate_sleep_duration_on, toMinutes, mkTime]
example : calculate_sleep_duration (mkTime 1 30) (mkTime 7 0) = 11/2 := by
  norm_num [calculate_sleep_duration, calculate_sleep_duration_on, toMinutes, mkTime]
example : calculate_sleep_duration (mkTime 7 0) (mkTime 1 30) = 37/2 := by
  norm_num [calculate_sleep_duration, calculate_sleep_duration_on, toMinutes, mkTime]

/-- One row of the `sleep_data` data frame: Date, Bedtime, WakeTime,
SleepDuration.  The date is a day count (its value never feeds the
computations below). -/
structure SleepEntry where
  date : ℤ
  bedtime : TimeOfDay
  wakeTime : TimeOfDay
  sleepDuration : ℚ
deriving DecidableEq, Repr

/-- The row that `add_sleep_entry` constructs: the duration is computed from
the two times at creation. -/
def mkEntry (date : ℤ) (bedtime waketime : TimeOfDay) : SleepEntry :=
  ⟨date, bedtime, waketime, calculate_sleep_duration bedtime waketime⟩

/-- Embeds `add_sleep_entry`: `pd.concat` of the existing frame with the one
new row, i.e. append at the end. -/
def add_sleep_entry (store : List SleepEntry) (date : ℤ) (bedtime waketime : TimeOfDay) :
    List SleepEntry :=
  store ++ [mkEntry date bedtime waketime]

/-- The two mutations the UI performs on `st.session_state.sleep_data`:
submitting the form (`add_sleep_entry`) and the Clear All Data button
(replace the frame by an empty one). -/
inductive StoreOp where
  | add (date : ℤ) (bedtime waketime : TimeOfDay)
  | clear
deriving DecidableEq, Repr

/-- Effect of one store operation on the data frame. -/
def applyOp (store : List SleepEntry) : StoreOp → List SleepEntry
  | StoreOp.add d b w => add_sleep_entry store d b w
  | StoreOp.clear => []

/-- Effect of a sequence of store operations, applied left to right. -/
def runOps (store : List SleepEntry) (ops : List StoreOp) : List SleepEntry :=
  ops.foldl applyOp store

/-- Embeds pandas `Series.mean`: sum divided by length (only called on
nonempty series by the program; rational division by zero yields 0). -/
def seriesMean (xs : List ℚ) : ℚ :=
  xs.sum / xs.length

/-- Sample variance with divisor `n - 1`, the quantity under the square root
of pandas `Series.std(ddof=1)` (only called with at least two values by the
program). -/
def sampleVar (xs : List ℚ) : ℚ :=
  (xs.map (fun x => (x - seriesMean xs) ^ 2)).sum / ((xs.length : ℚ) - 1)

/-- Embeds pandas `Series.std` with its default `ddof = 1`. -/
noncomputable def seriesStd (xs : List ℚ) : ℝ :=
  Real.sqrt (sampleVar xs)

def msgAddMoreData : String :=
  "Add more data to get meaningful insights."

def msgLowSleep : String :=
  "Your average sleep duration is below the recommended 7-8 hours. Try to go to bed earlier or wake up later."

def msgHighSleep : String :=
  "Your average sleep duration is above the recommended 7-8 hours. While sleep needs vary, excessive sleep can sometimes indicate underlying health issues."

def msgGoodSleep : String :=
  "Your average sleep duration is within the recommended range. Great job!"

def msgBedtimeVaries : String :=
  "Your bedtime varies significantly. Try to go to bed at the same time each night to improve sleep quality."

def msgBedtimeIrregular : String :=
  "Your bedtime is somewhat irregular. Consider establishing a more consistent sleep schedule."

def msgBedtimeConsistent : String :=
  "Your bedtime is consistent, which is excellent for maintaining healthy sleep patterns."

def msgDurationVaries : String :=
  "Your sleep duration varies considerably. Aim for a consistent amount of sleep each night."

/-- The dictionary returned by `analyze_sleep_patterns`. -/
structure AnalysisResult where
  avg_sleep : ℚ
  sleep_consistency : ℝ
  recommendations : List String

/-- Embeds `analyze_sleep_patterns`.  Fewer than two rows short-circuits to
the add-more-data result; otherwise the mean duration, the sample standard
deviations of durations and of bedtimes in decimal hours, and the
recommendation strings appended in the program's fixed order. -/
noncomputable def analyze_sleep_patterns (df : List SleepEntry) : AnalysisResult :=
  if df.length < 2 then
    { avg_sleep := if df.length > 0 then seriesMean (df.map SleepEntry.sleepDuration) else 0
      sleep_consistency := 0
      recommendations := [msgAddMoreData] }
  else
    let avg_sleep := seriesMean (df.map SleepEntry.sleepDuration)
    let sleep_std := seriesStd (df.map SleepEntry.sleepDuration)
    let bedtimes := df.map (fun e => toDecimalHours e.bedtime)
    let bedtime_std := seriesStd bedtimes
    { avg_sleep := avg_sleep
      sleep_consistency := bedtime_std
      recommendations :=
        (if avg_sleep < 7 then [msgLowSleep]
         else if avg_sleep > 9 then [msgHighSleep]
         else [msgGoodSleep]) ++
        (if bedtime_std > 1.5 then [msgBedtimeVaries]
         else if bedtime_std > 0.75 then [msgBedtimeIrregular]
         else [msgBedtimeConsistent]) ++
        (if sleep_std > 1.5 then [msgDurationVaries] else []) }

/-- Arithmetic mean, following the spec's words (section 4.3, step 2). -/
def specAverage (xs : List ℚ) : ℚ :=
  xs.sum / xs.length

/-- Sample standard deviation with divisor `n - 1`, following the spec's
words (glossary: treated as 0 for `n < 2`). -/
noncomputable def specSampleStdDev (xs : List ℚ) : ℝ :=
  if xs.length < 2 then 0
  else Real.sqrt (((xs.map (fun x => (x - specAverage xs) ^ 2)).sum / ((xs.length : ℚ) - 1) : ℚ))

theorem toMinutes_lt (t : TimeOfDay) : toMinutes t < 1440 := by
  have h1 := t.hour.isLt
  have h2 := t.minute.isLt
  unfold toMinutes
  omega

theorem toDecimalHours_eq (t : TimeOfDay) : toDecimalHours t = (toMinutes t : ℚ) / 60 := by
  unfold toDecimalHours toMinutes
  push_cast
  ring

/-- C10: `calculate_sleep_duration` reads `datetime.now().date()` only to
build two instants on the same reference day, so the duration it returns is
the same for every reference date: the function is deterministic in the hour
and minute fields of its two arguments. -/
theorem calculate_sleep_duration_date_independent (d1 d2 : ℤ) (b w : TimeOfDay) :
    calculate_sleep_duration_on d1 b w = calculate_sleep_duration_on d2 b w := by
  unfold calculate_sleep_duration_on
  simp only [gt_iff_lt, add_lt_add_iff_left]
  split_ifs <;> push_cast <;> ring

/-- C1 (counterexample): at bedtime = wake time = 23:00 the program returns
a duration of 0, not 24.0, because the wrap branch tests
`bedtime_dt > waketime_dt` strictly. -/
theorem equal_times_not_24 :
    ¬ calculate_sleep_duration (mkTime 23 0) (mkTime 23 0) = 24 := by
  norm_num [calculate_sleep_duration, calculate_sleep_duration_on, toMinutes, mkTime]

/-- C1 (amended): for every pair of equal times-of-day the program returns a
duration of 0.0 hours; the overnight wrap applies only when the wake time is
strictly earlier than the bedtime. -/
theorem equal_times_duration_zero (t : TimeOfDay) :
    calculate_sleep_duration t t = 0 := by
  unfold calculate_sleep_duration calculate_sleep_duration_on
  simp

/-- C2: in the overnight case (wake time strictly earlier than bedtime as
times-of-day) the duration is exactly `24 - b + w` where `b` and `w` are the
two times in decimal hours. -/
theorem overnight_duration (b w : TimeOfDay) (h : toMinutes w < toMinutes b) :
    calculate_sleep_duration b w = 24 - toDecimalHours b + toDecimalHours w := by
  unfold calculate_sleep_duration calculate_sleep_duration_on
  rw [toDecimalHours_eq, toDecimalHours_eq]
  have hw : (toMinutes w : ℤ) < (toMinutes b : ℤ) := by exact_mod_cast h
  simp only [gt_iff_lt, add_lt_add_iff_left, if_pos hw]
  push_cast
  ring

theorem overnight_duration_witness :
    toMinutes (mkTime 7 0) < toMinutes (mkTime 23 0) ∧
    calculate_sleep_duration (mkTime 23 0) (mkTime 7 0) =
      24 - toDecimalHours (mkTime 23 0) + toDecimalHours (mkTime 7 0) :=
  ⟨by decide, overnight_duration (mkTime 23 0) (mkTime 7 0) (by decide)⟩

/-- C3: in the same-day case (wake time strictly later than bedtime as
times-of-day) the duration is exactly `w - b` in decimal hours, with no
overnight wrap. -/
theorem same_day_duration (b w : TimeOfDay) (h : toMinutes b < toMinutes w) :
    calculate_sleep_duration b w = toDecimalHours w - toDecimalHours b := by
  unfold calculate_sleep_duration calculate_sleep_duration_on
  rw [toDecimalHours_eq, toDecimalHours_eq]
  have hw : ¬ (toMinutes w : ℤ) < (toMinutes b : ℤ) := by
    simp only [not_lt]
    exact_mod_cast h.le
  simp only [gt_iff_lt, add_lt_add_iff_left, if_neg hw]
  push_cast
  ring

theorem same_day_duration_witness :
    toMinutes (mkTime 1 30) < toMinutes (mkTime 7 0) ∧
    calculate_sleep_duration (mkTime 1 30) (mkTime 7 0) =
      toDecimalHours (mkTime 7 0) - toDecimalHours (mkTime 1 30) :=
  ⟨by decide, same_day_duration (mkTime 1 30) (mkTime 7 0) (by decide)⟩

theorem calculate_sleep_duration_bounds (b w : TimeOfDay) :
    0 ≤ calculate_sleep_duration b w ∧ calculate_sleep_duration b w < 24 := by
  have hb := toMinutes_lt b
  have hw := toMinutes_lt w
  unfold calculate_sleep_duration calculate_sleep_duration_on
  simp only [zero_mul, zero_add, gt_iff_lt]
  split_ifs with h
  · constructor
    · apply div_nonneg _ (by norm_num)
      have h0 : (0 : ℤ) ≤ ((toMinutes w : ℤ) + 1440 - (toMinutes b : ℤ)) * 60 := by omega
      exact_mod_cast h0
    · rw [div_lt_iff₀ (by norm_num)]
      have h0 : ((toMinutes w : ℤ) + 1440 - (toMinutes b : ℤ)) * 60 < 24 * 3600 := by omega
      exact_mod_cast h0
  · simp only [not_lt] at h
    constructor
    · apply div_nonneg _ (by norm_num)
      have h0 : (0 : ℤ) ≤ ((toMinutes w : ℤ) - (toMinutes b : ℤ)) * 60 := by omega
      exact_mod_cast h0
    · rw [div_lt_iff₀ (by norm_num)]
      have h0 : ((toMinutes w : ℤ) - (toMinutes b : ℤ)) * 60 < 24 * 3600 := by omega
      exact_mod_cast h0

theorem runOps_invariant_aux (ops : List StoreOp) (s : List SleepEntry)
    (hs : ∀ e ∈ s, 0 ≤ e.sleepDuration ∧ e.sleepDuration < 24) :
    ∀ e ∈ runOps s ops, 0 ≤ e.sleepDuration ∧ e.sleepDuration < 24 := by
  induction ops generalizing s with
  | nil => simpa [runOps] using hs
  | cons op ops ih =>
    intro e he
    rw [runOps, List.foldl_cons] at he
    refine ih (applyOp s op) ?_ e he
    intro f hf
    cases op with
    | add d b w =>
      simp only [applyOp, add_sleep_entry, List.mem_append, List.mem_singleton] at hf
      rcases hf with hf | hf
      · exact hs f hf
      · subst hf
        simpa [mkEntry] using calculate_sleep_duration_bounds b w
    | clear => simp [applyOp] at hf

/-- C4: every entry the program stores has a duration in `[0, 24)`, and this
invariant is preserved by every sequence of append and clear operations on
the store. -/
theorem store_duration_invariant (ops : List StoreOp) (e : SleepEntry)
    (he : e ∈ runOps [] ops) :
    0 ≤ e.sleepDuration ∧ e.sleepDuration < 24 :=
  runOps_invariant_aux ops [] (by simp) e he

theorem store_duration_invariant_witness :
    mkEntry 0 (mkTime 23 0) (mkTime 7 0) ∈
      runOps [] [StoreOp.add 0 (mkTime 23 0) (mkTime 7 0)] ∧
    0 ≤ (mkEntry 0 (mkTime 23 0) (mkTime 7 0)).sleepDuration ∧
    (mkEntry 0 (mkTime 23 0) (mkTime 7 0)).sleepDuration < 24 :=
  ⟨by simp [runOps, applyOp, add_sleep_entry],
   store_duration_invariant [StoreOp.add 0 (mkTime 23 0) (mkTime 7 0)] _
     (by simp [runOps, applyOp, add_sleep_entry])⟩

theorem runOps_adds_aux (inputs : List (ℤ × TimeOfDay × TimeOfDay)) (s : List SleepEntry) :
    runOps s (inputs.map fun p => StoreOp.add p.1 p.2.1 p.2.2) =
      s ++ inputs.map fun p => mkEntry p.1 p.2.1 p.2.2 := by
  induction inputs generalizing s with
  | nil => simp [runOps]
  | cons p ps ih =>
    rw [List.map_cons, runOps, List.foldl_cons, ← runOps, ih]
    simp [applyOp, add_sleep_entry]

/-- C9: each append concatenates exactly one new row at the end, leaving all
previous rows (durations included) unchanged; appending a list of inputs to
the empty store yields exactly those rows, in order. -/
theorem add_sleep_entry_frame (inputs : List (ℤ × TimeOfDay × TimeOfDay)) :
    (∀ (s : List SleepEntry) (d : ℤ) (b w : TimeOfDay),
        add_sleep_entry s d b w = s ++ [mkEntry d b w]) ∧
    runOps [] (inputs.map fun p => StoreOp.add p.1 p.2.1 p.2.2) =
      inputs.map fun p => mkEntry p.1 p.2.1 p.2.2 := by
  refine ⟨fun s d b w => rfl, ?_⟩
  simpa using runOps_adds_aux inputs []

/-- C8: any sequence of operations followed by the Clear All Data action
leaves the store empty, and analyzing the cleared store returns average 0,
consistency 0 and the single add-more-data recommendation. -/
theorem clear_resets_store (s : List SleepEntry) (ops : List StoreOp) :
    runOps s (ops ++ [StoreOp.clear]) = [] ∧
    (analyze_sleep_patterns (runOps s (ops ++ [StoreOp.clear]))).avg_sleep = 0 ∧
    (analyze_sleep_patterns (runOps s (ops ++ [StoreOp.clear]))).sleep_consistency = 0 ∧
    (analyze_sleep_patterns (runOps s (ops ++ [StoreOp.clear]))).recommendations =
      [msgAddMoreData] := by
  have h : runOps s (ops ++ [StoreOp.clear]) = [] := by
    simp [runOps, List.foldl_append, applyOp]
  refine ⟨h, ?_, ?_, ?_⟩ <;> rw [h] <;> simp [analyze_sleep_patterns]

/-- C5: with fewer than two rows the analyzer returns the mean duration when
exactly one row exists and 0 when none does, bedtime consistency 0, and a
recommendations list holding exactly the add-more-data string. -/
theorem analyze_few_entries (df : List SleepEntry) (h : df.length < 2) :
    (df.length = 1 →
      (analyze_sleep_patterns df).avg_sleep = seriesMean (df.map SleepEntry.sleepDuration)) ∧
    (df.length = 0 → (analyze_sleep_patterns df).avg_sleep = 0) ∧
    (analyze_sleep_patterns df).sleep_consistency = 0 ∧
    (analyze_sleep_patterns df).recommendations = [msgAddMoreData] := by
  unfold analyze_sleep_patterns
  rw [if_pos h]
  refine ⟨fun h1 => ?_, fun h0 => ?_, rfl, rfl⟩
  · simp [h1]
  · simp [h0]

theorem analyze_few_entries_witness :
    ([mkEntry 0 (mkTime 23 0) (mkTime 7 0)].length < 2) ∧
    (([mkEntry 0 (mkTime 23 0) (mkTime 7 0)].length = 1 →
      (analyze_sleep_patterns [mkEntry 0 (mkTime 23 0) (mkTime 7 0)]).avg_sleep =
        seriesMean ([mkEntry 0 (mkTime 23 0) (mkTime 7 0)].map SleepEntry.sleepDuration)) ∧
    ([mkEntry 0 (mkTime 23 0) (mkTime 7 0)].length = 0 →
      (analyze_sleep_patterns [mkEntry 0 (mkTime 23 0) (mkTime 7 0)]).avg_sleep = 0) ∧
    (analyze_sleep_patterns [mkEntry 0 (mkTime 23 0) (mkTime 7 0)]).sleep_consistency = 0 ∧
    (analyze_sleep_patterns [mkEntry 0 (mkTime 23 0) (mkTime 7 0)]).recommendations =
      [msgAddMoreData]) :=
  ⟨by decide, analyze_few_entries [mkEntry 0 (mkTime 23 0) (mkTime 7 0)] (by decide)⟩

/-- C6: with at least two rows the analyzer returns the arithmetic mean of
all stored durations and, as bedtime consistency, the sample standard
deviation (divisor n−1) of the bedtimes converted to decimal hours. -/
theorem analyze_statistics (df : List SleepEntry) (h : 2 ≤ df.length) :
    (analyze_sleep_patterns df).avg_sleep = specAverage (df.map SleepEntry.sleepDuration) ∧
    (analyze_sleep_patterns df).sleep_consistency =
      specSampleStdDev (df.map fun e => toDecimalHours e.bedtime) := by
  have h2 : ¬ df.length < 2 := not_lt.2 h
  simp only [analyze_sleep_patterns, if_neg h2]
  refine ⟨rfl, ?_⟩
  show seriesStd (df.map fun e => toDecimalHours e.bedtime) =
    specSampleStdDev (df.map fun e => toDecimalHours e.bedtime)
  unfold seriesStd specSampleStdDev sampleVar seriesMean specAverage
  rw [if_neg (by simpa using h2)]

theorem analyze_statistics_witness :
    (2 ≤ [mkEntry 0 (mkTime 23 0) (mkTime 7 0), mkEntry 1 (mkTime 22 30) (mkTime 6 0)].length) ∧
    ((analyze_sleep_patterns
        [mkEntry 0 (mkTime 23 0) (mkTime 7 0), mkEntry 1 (mkTime 22 30) (mkTime 6 0)]).avg_sleep =
      specAverage
        ([mkEntry 0 (mkTime 23 0) (mkTime 7 0),
          mkEntry 1 (mkTime 22 30) (mkTime 6 0)].map SleepEntry.sleepDuration) ∧
    (analyze_sleep_patterns
        [mkEntry 0 (mkTime 23 0) (mkTime 7 0),
         mkEntry 1 (mkTime 22 30) (mkTime 6 0)]).sleep_consistency =
      specSampleStdDev
        ([mkEntry 0 (mkTime 23 0) (mkTime 7 0),
          mkEntry 1 (mkTime 22 30) (mkTime 6 0)].map fun e => toDecimalHours e.bedtime)) :=
  ⟨by decide,
   analyze_statistics
     [mkEntry 0 (mkTime 23 0) (mkTime 7 0), mkEntry 1 (mkTime 22 30) (mkTime 6 0)] (by decide)⟩

/-- C7: with at least two rows the recommendations list is, in order, exactly
one duration message (low, high, or in-range), then exactly one bedtime
consistency message (varies significantly, somewhat irregular, or
consistent), then the duration-variability message exactly when the sample
standard deviation of the durations exceeds 1.5; hence its length is 2 or 3. -/
theorem analyze_recommendations_order (df : List SleepEntry) (h : 2 ≤ df.length) :
    (analyze_sleep_patterns df).recommendations =
      (if seriesMean (df.map SleepEntry.sleepDuration) < 7 then msgLowSleep
       else if seriesMean (df.map SleepEntry.sleepDuration) > 9 then msgHighSleep
       else msgGoodSleep) ::
      (if seriesStd (df.map fun e => toDecimalHours e.bedtime) > 1.5 then msgBedtimeVaries
       else if seriesStd (df.map fun e => toDecimalHours e.bedtime) > 0.75 then
         msgBedtimeIrregular
       else msgBedtimeConsistent) ::
      (if seriesStd (df.map SleepEntry.sleepDuration) > 1.5 then [msgDurationVaries] else []) ∧
    ((analyze_sleep_patterns df).recommendations.length = 2 ∨
     (analyze_sleep_patterns df).recommendations.length = 3) := by
  have h2 : ¬ df.length < 2 := not_lt.2 h
  simp only [analyze_sleep_patterns, if_neg h2]
  constructor
  · split_ifs <;> simp
  · split_ifs <;> simp

theorem analyze_recommendations_order_witness :
    (2 ≤ [mkEntry 0 (mkTime 23 0) (mkTime 7 0), mkEntry 1 (mkTime 22 30) (mkTime 6 0)].length) ∧
    ((analyze_sleep_patterns
        [mkEntry 0 (mkTime 23 0) (mkTime 7 0),
         mkEntry 1 (mkTime 22 30) (mkTime 6 0)]).recommendations.length = 2 ∨
     (analyze_sleep_patterns
        [mkEntry 0 (mkTime 23 0) (mkTime 7 0),
         mkEntry 1 (mkTime 22 30) (mkTime 6 0)]).recommendations.length = 3) :=
  ⟨by decide,
   (analyze_recommendations_order
     [mkEntry 0 (mkTime 23 0) (mkTime 7 0), mkEntry 1 (mkTime 22 30) (mkTime 6 0)]
     (by decide)).2⟩
